import Mathlib

/-!
Verification of `ConcurrentBlockingQueue` (header variant,
`src/Logger/ConcurrentBlockingQueue.hpp`) against its specification.

The embedding is sequential: each public operation is modelled as a pure
function of the queue state observed while the operation holds the access
mutex. A blocking wait is resolved against that fixed state: the condition
variable's `wait(lock, pred)` returns exactly when `pred` holds (and blocks
forever otherwise, since in a single call no other thread changes the state),
and `wait_for(lock, duration, pred)` returns the value of `pred` at the
deadline. Out-of-range iterator arithmetic (`_data.begin() + count` past the
end of the deque, `front()` on an empty deque) is C++ undefined behavior and
is modelled by `Option.none` in the data-access primitives, surfaced as the
`undef` outcome. Whether an operation signals the condition variable
(`_waitNotification.notify_all()`) is recorded explicitly, so that the wake
discipline of the source is part of the model.
-/

namespace CBQ

/-- `CBC::StatusCode` from `ConcurrentBlockingQueue.hpp`. -/
inductive StatusCode where
  | Success
  | Interrupted
  | Timeout
  | InsufficientElements
deriving DecidableEq, Repr

/-- The state of a `CBC::ConcurrentBlockingQueue<T>` protected by
`_accessMutex`: the deque `_data` (front of the list = front of the deque),
the flag `_interrupted` and the optional `_timeoutDuration` (milliseconds). -/
structure Queue (α : Type) where
  data : List α
  interrupted : Bool
  timeoutDuration : Option Nat
deriving DecidableEq, Repr

/-- The default-constructed queue: `_data` empty, `_interrupted{ false }`,
`_timeoutDuration` empty (`ConcurrentBlockingQueue() = default`). -/
def init {α : Type} : Queue α := ⟨[], false, none⟩

/-- `getSize()`: `_data.size()` under lock. -/
def getSize {α : Type} (q : Queue α) : Nat := q.data.length

/-- `isEmpty()`: `_data.empty()` under lock. -/
def isEmpty {α : Type} (q : Queue α) : Bool := q.data.isEmpty

/-- `isInterrupted()`: `_interrupted` under lock. -/
def isInterrupted {α : Type} (q : Queue α) : Bool := q.interrupted

/-- `getTimeoutDuration()`: `_timeoutDuration` under lock. -/
def getTimeoutDuration {α : Type} (q : Queue α) : Option Nat := q.timeoutDuration

/-- `clear()`: `_data.clear()` under lock; touches no other member and does
not signal the condition variable. -/
def clear {α : Type} (q : Queue α) : Queue α := { q with data := [] }

/-- `setInterrupted(value)`: sets `_interrupted = value` under lock. The
returned `Bool` records whether the call signalled `_waitNotification`; the
source body contains no `notify_all()`, so it is `false`. -/
def setInterrupted {α : Type} (q : Queue α) (value : Bool) : Queue α × Bool :=
  ({ q with interrupted := value }, false)

/-- `setTimeoutDuration(duration)` under lock. -/
def setTimeoutDuration {α : Type} (q : Queue α) (duration : Option Nat) : Queue α :=
  { q with timeoutDuration := duration }

/-- Result of a push operation: the status code, the queue state after the
call, and whether the call executed `_waitNotification.notify_all()`. -/
structure PushResult (α : Type) where
  status : StatusCode
  q : Queue α
  notifies : Bool
deriving DecidableEq, Repr

/-- `dataInsert(first, last)`: `_data.insert(_data.end(), first, last)`,
i.e. append the batch at the tail in input order. -/
def dataInsert {α : Type} (data : List α) (xs : List α) : List α := data ++ xs

/-- `dataInsert(value)`: `_data.push_back(value)`. -/
def dataInsertOne {α : Type} (data : List α) (x : α) : List α := data ++ [x]

/-- `pushInternal` instantiated with an iterator pair (batch push): under
lock, return `Interrupted` if `_interrupted`, otherwise `dataInsert`, unlock
and `notify_all`, return `Success`. -/
def pushInternalBatch {α : Type} (q : Queue α) (xs : List α) : PushResult α :=
  if q.interrupted then ⟨StatusCode.Interrupted, q, false⟩
  else ⟨StatusCode.Success, { q with data := dataInsert q.data xs }, true⟩

/-- `pushInternal` instantiated with a single value. -/
def pushInternalOne {α : Type} (q : Queue α) (x : α) : PushResult α :=
  if q.interrupted then ⟨StatusCode.Interrupted, q, false⟩
  else ⟨StatusCode.Success, { q with data := dataInsertOne q.data x }, true⟩

/-- `pushOne(value)`: forwards to `pushInternal(value)`. -/
def pushOne {α : Type} (q : Queue α) (x : α) : PushResult α := pushInternalOne q x

/-- `pushBatch(list)` / `pushBatch(first, last)`: forwards to
`pushInternal(first, last)` with no emptiness guard. -/
def pushBatch {α : Type} (q : Queue α) (xs : List α) : PushResult α :=
  pushInternalBatch q xs

/-- Outcome of the wait section at the top of `getFrontInternal`, resolved
against the fixed state of a sequential call. -/
inductive WaitOutcome where
  | timeout
  | blocks
  | proceed
deriving DecidableEq, Repr

/-- The wait section of `getFrontInternal`: when `blocking`, if
`_timeoutDuration` has a value and `wait_for(lock, duration, pred)` returns
`false` (the predicate does not hold at the deadline) the caller returns
`Timeout`; otherwise `wait(lock, pred)` runs, which returns when the
predicate holds and otherwise never returns (`blocks`). When not blocking,
the wait section is skipped. -/
def waitResolve {α : Type} (q : Queue α) (blocking : Bool)
    (pred : Queue α → Bool) : WaitOutcome :=
  if blocking then
    match q.timeoutDuration with
    | some _ => if pred q then WaitOutcome.proceed else WaitOutcome.timeout
    | none => if pred q then WaitOutcome.proceed else WaitOutcome.blocks
  else WaitOutcome.proceed

/-- `dataGet(destination, count, pop)`: `pop` moves
`[_data.begin(), _data.begin() + count)` to the destination and erases that
range; otherwise it copies the range. `_data.begin() + count` past the end
of the deque is undefined behavior, modelled as `none`. Returns the elements
written to the destination and the remaining `_data`. -/
def dataGet {α : Type} (data : List α) (count : Nat) (pop : Bool) :
    Option (List α × List α) :=
  if count ≤ data.length then
    some (data.take count, if pop then data.drop count else data)
  else none

/-- `dataGet(output, pop)`: `pop` moves `_data.front()` to the output and
pops it; otherwise it copies `_data.front()`. `front()` on an empty deque is
undefined behavior, modelled as `none`. -/
def dataGetOne {α : Type} (data : List α) (pop : Bool) : Option (α × List α) :=
  match data with
  | [] => none
  | x :: rest => some (x, if pop then rest else x :: rest)

/-- Outcome of a batch pop/peek call: the call blocks forever, runs into
undefined behavior, or returns a status, the queue state after the call and
the elements written to the output iterator (`none` when nothing was
written). -/
inductive PopResult (α : Type) where
  | blocks
  | undef
  | done (status : StatusCode) (q : Queue α) (out : Option (List α))
deriving DecidableEq, Repr

/-- Outcome of a single-element pop/peek call; `out = none` means the
caller's output reference was left untouched. -/
inductive PopResult1 (α : Type) where
  | blocks
  | undef
  | done (status : StatusCode) (q : Queue α) (out : Option α)
deriving DecidableEq, Repr

/-- `getFrontInternal` instantiated at `(destination, count, pop)`: run the
wait section; then return `Interrupted` if `_interrupted`; then return
`InsufficientElements` if `_data.empty()`; otherwise `dataGet` and return
`Success`. -/
def getFrontInternalBatch {α : Type} (q : Queue α) (blocking : Bool)
    (pred : Queue α → Bool) (count : Nat) (pop : Bool) : PopResult α :=
  match waitResolve q blocking pred with
  | WaitOutcome.timeout => PopResult.done StatusCode.Timeout q none
  | WaitOutcome.blocks => PopResult.blocks
  | WaitOutcome.proceed =>
    if q.interrupted then PopResult.done StatusCode.Interrupted q none
    else if q.data.isEmpty then
      PopResult.done StatusCode.InsufficientElements q none
    else
      match dataGet q.data count pop with
      | none => PopResult.undef
      | some (out, rest) =>
        PopResult.done StatusCode.Success { q with data := rest } (some out)

/-- `getFrontInternal` instantiated at `(output, pop)`. -/
def getFrontInternalOne {α : Type} (q : Queue α) (blocking : Bool)
    (pred : Queue α → Bool) (pop : Bool) : PopResult1 α :=
  match waitResolve q blocking pred with
  | WaitOutcome.timeout => PopResult1.done StatusCode.Timeout q none
  | WaitOutcome.blocks => PopResult1.blocks
  | WaitOutcome.proceed =>
    if q.interrupted then PopResult1.done StatusCode.Interrupted q none
    else if q.data.isEmpty then
      PopResult1.done StatusCode.InsufficientElements q none
    else
      match dataGetOne q.data pop with
      | none => PopResult1.undef
      | some (x, rest) =>
        PopResult1.done StatusCode.Success { q with data := rest } (some x)

/-- `popOne(output, blocking)` with wait predicate
`!_data.empty() || _interrupted`. -/
def popOne {α : Type} (q : Queue α) (blocking : Bool) : PopResult1 α :=
  getFrontInternalOne q blocking (fun s => !s.data.isEmpty || s.interrupted) true

/-- `getFront(output, blocking)` with wait predicate
`!_data.empty() || _interrupted`. -/
def getFront {α : Type} (q : Queue α) (blocking : Bool) : PopResult1 α :=
  getFrontInternalOne q blocking (fun s => !s.data.isEmpty || s.interrupted) false

/-- `popBatch(destination, count, blocking)` with wait predicate
`_data.size() >= count || _interrupted`; there is no `count == 0` guard. -/
def popBatch {α : Type} (q : Queue α) (count : Nat) (blocking : Bool) :
    PopResult α :=
  getFrontInternalBatch q blocking
    (fun s => decide (count ≤ s.data.length) || s.interrupted) count true

/-- `getFrontBatch(destination, count, blocking)` with wait predicate
`_data.size() >= count || _interrupted`. -/
def getFrontBatch {α : Type} (q : Queue α) (count : Nat) (blocking : Bool) :
    PopResult α :=
  getFrontInternalBatch q blocking
    (fun s => decide (count ≤ s.data.length) || s.interrupted) count false

end CBQ

/-!
Scenario scaffolding for the FIFO claim: a sequence of push operations
(single or batch) applied in order, and a driver that repeatedly calls
`popOne(blocking = true)` and collects the values it receives.
-/

/-- A push operation of the public interface: `pushOne` or `pushBatch`. -/
inductive PushOp (α : Type) where
  | one (x : α)
  | batch (xs : List α)

/-- The values a push operation submits, in input order. -/
def PushOp.values {α : Type} : PushOp α → List α
  | PushOp.one x => [x]
  | PushOp.batch xs => xs

/-- Apply a push operation to the queue and keep the resulting state. -/
def applyPush {α : Type} (q : CBQ.Queue α) (op : PushOp α) : CBQ.Queue α :=
  match op with
  | PushOp.one x => (CBQ.pushOne q x).q
  | PushOp.batch xs => (CBQ.pushBatch q xs).q

/-- All values submitted by a sequence of push operations, in order. -/
def pushedValues {α : Type} : List (PushOp α) → List α
  | [] => []
  | op :: rest => op.values ++ pushedValues rest

/-- Pop repeatedly with `popOne(blocking = true)`, collecting the received
values in order; stop after `fuel` pops or at the first call that does not
return `Success`. -/
def popAll {α : Type} : CBQ.Queue α → Nat → List α
  | _, 0 => []
  | q, Nat.succ fuel =>
    match CBQ.popOne q true with
    | CBQ.PopResult1.done CBQ.StatusCode.Success q' (some x) => x :: popAll q' fuel
    | _ => []

/-- If the wait predicate holds on the observed state, the wait section
resolves and the call proceeds, whatever the blocking mode and timeout
setting. -/
theorem waitResolve_of_pred_true {α : Type} {q : CBQ.Queue α} {blocking : Bool}
    {pred : CBQ.Queue α → Bool} (h : pred q = true) :
    CBQ.waitResolve q blocking pred = CBQ.WaitOutcome.proceed := by
  cases blocking <;> cases htd : q.timeoutDuration <;>
    simp [CBQ.waitResolve, htd, h]

/-- If a timeout is configured and the wait predicate fails on the observed
state, a blocking wait resolves to `Timeout`. -/
theorem waitResolve_timeout {α : Type} {q : CBQ.Queue α} {d : Nat}
    {pred : CBQ.Queue α → Bool} (htd : q.timeoutDuration = some d)
    (hp : pred q = false) :
    CBQ.waitResolve q true pred = CBQ.WaitOutcome.timeout := by
  simp [CBQ.waitResolve, htd, hp]

/-- A single-element pop/peek whose wait predicate holds and whose state is
interrupted returns `Interrupted` with no mutation and no output. -/
theorem getFrontInternalOne_interrupted {α : Type} {q : CBQ.Queue α}
    {blocking pop : Bool} {pred : CBQ.Queue α → Bool} (hp : pred q = true)
    (h : q.interrupted = true) :
    CBQ.getFrontInternalOne q blocking pred pop =
      CBQ.PopResult1.done CBQ.StatusCode.Interrupted q none := by
  unfold CBQ.getFrontInternalOne
  rw [waitResolve_of_pred_true hp]
  simp [h]

/-- A batch pop/peek whose wait predicate holds and whose state is
interrupted returns `Interrupted` with no mutation and no output. -/
theorem getFrontInternalBatch_interrupted {α : Type} {q : CBQ.Queue α}
    {blocking pop : Bool} {count : Nat} {pred : CBQ.Queue α → Bool}
    (hp : pred q = true) (h : q.interrupted = true) :
    CBQ.getFrontInternalBatch q blocking pred count pop =
      CBQ.PopResult.done CBQ.StatusCode.Interrupted q none := by
  unfold CBQ.getFrontInternalBatch
  rw [waitResolve_of_pred_true hp]
  simp [h]

/-- C1: the only sufficiency check in `getFrontInternal` is `_data.empty()`,
so a non-blocking batch pop or batch peek on a queue holding 2 elements with
requested count 5 is not answered with `InsufficientElements`: it reaches
`dataGet`, whose iterator `_data.begin() + 5` runs past the end of the
2-element deque (undefined behavior, `undef` in the model), instead of
returning `InsufficientElements` and leaving the queue unchanged. -/
theorem c1_popBatch_out_of_bounds_on_partial_data :
    CBQ.popBatch (⟨[1, 2], false, none⟩ : CBQ.Queue Nat) 5 false =
      CBQ.PopResult.undef ∧
    CBQ.getFrontBatch (⟨[1, 2], false, none⟩ : CBQ.Queue Nat) 5 false =
      CBQ.PopResult.undef := by
  exact ⟨rfl, rfl⟩

/-- C2: `setInterrupted(true)` sets `_interrupted` under the lock (the
transition takes effect) but never signals `_waitNotification` — its body
contains no `notify_all()` — so it wakes no blocked waiter, while a
successful push does signal the condition variable. -/
theorem c2_setInterrupted_sets_flag_but_never_notifies {α : Type}
    (q : CBQ.Queue α) (x : α) :
    (CBQ.setInterrupted q true).1.interrupted = true ∧
    (CBQ.setInterrupted q true).2 = false ∧
    (CBQ.pushOne q x).notifies = !q.interrupted := by
  refine ⟨rfl, rfl, ?_⟩
  by_cases hi : q.interrupted <;>
    simp [CBQ.pushOne, CBQ.pushInternalOne, hi]

/-- C3 counterexample: on an empty, non-interrupted queue,
`popBatch(count = 0, blocking = false)` returns `InsufficientElements`,
not `Success` — the claim that `popBatch(0)` always returns `Success` is
false for the header variant, which has no `count == 0` guard. -/
theorem c3_cex_popBatch_zero_on_empty_queue :
    CBQ.popBatch (⟨[], false, none⟩ : CBQ.Queue Nat) 0 false =
      CBQ.PopResult.done CBQ.StatusCode.InsufficientElements ⟨[], false, none⟩ none ∧
    decide (CBQ.StatusCode.InsufficientElements = CBQ.StatusCode.Success) = false := by
  exact ⟨rfl, rfl⟩

/-- C3 amended: `pushBatch([])` and `popBatch(0)` never change the queue
state; on an Active queue `pushBatch([])` returns `Success`, and
`popBatch(0)` returns `Success` when the queue is non-empty but
`InsufficientElements` when it is empty; on an Interrupted queue both
return `Interrupted`. -/
theorem c3_amended_empty_batch_and_zero_count {α : Type} (q : CBQ.Queue α)
    (blocking : Bool) :
    (CBQ.pushBatch q [] =
      if q.interrupted then ⟨CBQ.StatusCode.Interrupted, q, false⟩
      else ⟨CBQ.StatusCode.Success, q, true⟩) ∧
    (CBQ.popBatch q 0 blocking =
      if q.interrupted then CBQ.PopResult.done CBQ.StatusCode.Interrupted q none
      else if q.data.isEmpty then
        CBQ.PopResult.done CBQ.StatusCode.InsufficientElements q none
      else CBQ.PopResult.done CBQ.StatusCode.Success q (some [])) := by
  obtain ⟨data, intr, td⟩ := q
  constructor
  · cases intr <;> simp [CBQ.pushBatch, CBQ.pushInternalBatch, CBQ.dataInsert]
  · cases blocking <;> cases td <;> cases intr <;> cases data <;>
      simp [CBQ.popBatch, CBQ.getFrontInternalBatch, CBQ.waitResolve, CBQ.dataGet]

/-- C4: whenever the interrupted flag is set on the state a pop/peek call
resolves against, all four operations return `Interrupted` with the queue
unchanged and the output untouched — for every element count, every blocking
mode and every timeout setting, so `Interrupted` pre-empts both extraction
(the data stays in the queue) and `Timeout` (the wait predicate holds, so
the timed wait cannot report failure). -/
theorem c4_interrupted_takes_priority {α : Type} (q : CBQ.Queue α)
    (count : Nat) (blocking : Bool) (h : q.interrupted = true) :
    CBQ.popOne q blocking =
      CBQ.PopResult1.done CBQ.StatusCode.Interrupted q none ∧
    CBQ.getFront q blocking =
      CBQ.PopResult1.done CBQ.StatusCode.Interrupted q none ∧
    CBQ.popBatch q count blocking =
      CBQ.PopResult.done CBQ.StatusCode.Interrupted q none ∧
    CBQ.getFrontBatch q count blocking =
      CBQ.PopResult.done CBQ.StatusCode.Interrupted q none := by
  refine ⟨?_, ?_, ?_, ?_⟩
  · exact getFrontInternalOne_interrupted (by simp [h]) h
  · exact getFrontInternalOne_interrupted (by simp [h]) h
  · exact getFrontInternalBatch_interrupted (by simp [h]) h
  · exact getFrontInternalBatch_interrupted (by simp [h]) h

/-- C4 witness: a queue with 3 elements available, interrupted, and a 0 ms
timeout (already expired) still answers `popBatch(2)` and `popOne` with
`Interrupted`, leaving the elements in place. -/
theorem c4_interrupted_takes_priority_witness :
    CBQ.popOne (⟨[1, 2, 3], true, some 0⟩ : CBQ.Queue Nat) true =
      CBQ.PopResult1.done CBQ.StatusCode.Interrupted ⟨[1, 2, 3], true, some 0⟩ none ∧
    CBQ.getFront (⟨[1, 2, 3], true, some 0⟩ : CBQ.Queue Nat) true =
      CBQ.PopResult1.done CBQ.StatusCode.Interrupted ⟨[1, 2, 3], true, some 0⟩ none ∧
    CBQ.popBatch (⟨[1, 2, 3], true, some 0⟩ : CBQ.Queue Nat) 2 true =
      CBQ.PopResult.done CBQ.StatusCode.Interrupted ⟨[1, 2, 3], true, some 0⟩ none ∧
    CBQ.getFrontBatch (⟨[1, 2, 3], true, some 0⟩ : CBQ.Queue Nat) 2 true =
      CBQ.PopResult.done CBQ.StatusCode.Interrupted ⟨[1, 2, 3], true, some 0⟩ none :=
  c4_interrupted_takes_priority (⟨[1, 2, 3], true, some 0⟩ : CBQ.Queue Nat) 2 true rfl

/-- On a non-interrupted queue, a push operation appends its values at the
tail in input order and changes nothing else. -/
theorem applyPush_active {α : Type} (q : CBQ.Queue α) (op : PushOp α)
    (h : q.interrupted = false) :
    applyPush q op = ⟨q.data ++ op.values, false, q.timeoutDuration⟩ := by
  obtain ⟨data, intr, td⟩ := q
  subst h
  cases op <;>
    simp [applyPush, CBQ.pushOne, CBQ.pushBatch, CBQ.pushInternalOne,
      CBQ.pushInternalBatch, CBQ.dataInsert, CBQ.dataInsertOne, PushOp.values]

/-- Folding a sequence of push operations over a non-interrupted queue
appends all submitted values at the tail, in order. -/
theorem foldl_applyPush_active {α : Type} (ops : List (PushOp α))
    (q : CBQ.Queue α) (h : q.interrupted = false) :
    ops.foldl applyPush q = ⟨q.data ++ pushedValues ops, false, q.timeoutDuration⟩ := by
  induction ops generalizing q with
  | nil =>
    obtain ⟨data, intr, td⟩ := q
    subst h
    simp [pushedValues]
  | cons op rest ih =>
    rw [List.foldl_cons, applyPush_active q op h, ih _ rfl]
    simp [pushedValues, List.append_assoc]

/-- Popping one element at a time from a non-interrupted queue returns the
stored elements from the front, in order. -/
theorem popAll_eq_data {α : Type} (data : List α) (td : Option Nat) :
    popAll (⟨data, false, td⟩ : CBQ.Queue α) data.length = data := by
  induction data generalizing td with
  | nil => rfl
  | cons x rest ih =>
    have hpop : CBQ.popOne (⟨x :: rest, false, td⟩ : CBQ.Queue α) true =
        CBQ.PopResult1.done CBQ.StatusCode.Success ⟨rest, false, td⟩ (some x) := by
      cases td <;> rfl
    simp [popAll, hpop, ih]

/-- C5: for every sequence of push operations (`pushOne` or `pushBatch`)
applied to a fresh queue, popping everything back one element at a time
yields exactly the submitted values in submission order — pushes append at
the tail, pops remove from the front, so the queue is FIFO. -/
theorem c5_fifo_order {α : Type} (ops : List (PushOp α)) :
    popAll (ops.foldl applyPush (CBQ.init : CBQ.Queue α))
      (pushedValues ops).length = pushedValues ops := by
  rw [foldl_applyPush_active ops (CBQ.init : CBQ.Queue α) rfl]
  show popAll (⟨[] ++ pushedValues ops, false, none⟩ : CBQ.Queue α)
      (pushedValues ops).length = pushedValues ops
  rw [List.nil_append]
  exact popAll_eq_data (pushedValues ops) none

/-- C6: every push operation on an interrupted queue returns `Interrupted`,
leaves the element sequence (indeed the whole state) unchanged, and does
not signal the condition variable. -/
theorem c6_push_while_interrupted {α : Type} (q : CBQ.Queue α) (x : α)
    (xs : List α) (h : q.interrupted = true) :
    CBQ.pushOne q x = ⟨CBQ.StatusCode.Interrupted, q, false⟩ ∧
    CBQ.pushBatch q xs = ⟨CBQ.StatusCode.Interrupted, q, false⟩ := by
  constructor <;>
    simp [CBQ.pushOne, CBQ.pushBatch, CBQ.pushInternalOne,
      CBQ.pushInternalBatch, h]

/-- C6 witness: pushing `3` or the batch `[1, 2]` onto an interrupted queue
holding `[7]` returns `Interrupted` and leaves `[7]` in place. -/
theorem c6_push_while_interrupted_witness :
    CBQ.pushOne (⟨[7], true, none⟩ : CBQ.Queue Nat) 3 =
      ⟨CBQ.StatusCode.Interrupted, ⟨[7], true, none⟩, false⟩ ∧
    CBQ.pushBatch (⟨[7], true, none⟩ : CBQ.Queue Nat) [1, 2] =
      ⟨CBQ.StatusCode.Interrupted, ⟨[7], true, none⟩, false⟩ :=
  c6_push_while_interrupted (⟨[7], true, none⟩ : CBQ.Queue Nat) 3 [1, 2] rfl

/-- C7: a blocking pop/peek on a non-interrupted queue with a configured
timeout whose wait predicate fails at the deadline (fewer than `count`
elements for the batch operations, empty for the single operations) returns
`Timeout`, with the queue unchanged and the output untouched. -/
theorem c7_timeout_no_mutation {α : Type} (q : CBQ.Queue α) (count d : Nat)
    (htd : q.timeoutDuration = some d) (hint : q.interrupted = false) :
    (q.data.length < count →
      CBQ.popBatch q count true =
        CBQ.PopResult.done CBQ.StatusCode.Timeout q none ∧
      CBQ.getFrontBatch q count true =
        CBQ.PopResult.done CBQ.StatusCode.Timeout q none) ∧
    (q.data = [] →
      CBQ.popOne q true =
        CBQ.PopResult1.done CBQ.StatusCode.Timeout q none ∧
      CBQ.getFront q true =
        CBQ.PopResult1.done CBQ.StatusCode.Timeout q none) := by
  constructor
  · intro hlt
    have hw : CBQ.waitResolve q true
        (fun s => decide (count ≤ s.data.length) || s.interrupted) =
        CBQ.WaitOutcome.timeout := by
      refine waitResolve_timeout htd ?_
      simp only [hint, Bool.or_false, decide_eq_false_iff_not]
      omega
    constructor <;>
      simp only [CBQ.popBatch, CBQ.getFrontBatch, CBQ.getFrontInternalBatch, hw]
  · intro hemp
    have hw : CBQ.waitResolve q true
        (fun s => !s.data.isEmpty || s.interrupted) =
        CBQ.WaitOutcome.timeout := by
      refine waitResolve_timeout htd ?_
      simp [hemp, hint]
    constructor <;>
      simp only [CBQ.popOne, CBQ.getFront, CBQ.getFrontInternalOne, hw]

/-- C7 witness: an empty, non-interrupted queue with a 100 ms timeout
answers both `popBatch(2, blocking)` and `popOne(blocking)` with `Timeout`
and stays empty. -/
theorem c7_timeout_no_mutation_witness :
    CBQ.popBatch (⟨[], false, some 100⟩ : CBQ.Queue Nat) 2 true =
      CBQ.PopResult.done CBQ.StatusCode.Timeout ⟨[], false, some 100⟩ none ∧
    CBQ.popOne (⟨[], false, some 100⟩ : CBQ.Queue Nat) true =
      CBQ.PopResult1.done CBQ.StatusCode.Timeout ⟨[], false, some 100⟩ none := by
  have h := c7_timeout_no_mutation (⟨[], false, some 100⟩ : CBQ.Queue Nat)
    2 100 rfl rfl
  exact ⟨(h.1 (by decide)).1, (h.2 rfl).1⟩

/-- A single-element peek (`pop = false`) that returns a status leaves the
queue state exactly as it was. -/
theorem getFrontInternalOne_peek_queue {α : Type} (q : CBQ.Queue α)
    (blocking : Bool) (pred : CBQ.Queue α → Bool) (st : CBQ.StatusCode)
    (q' : CBQ.Queue α) (out : Option α)
    (h : CBQ.getFrontInternalOne q blocking pred false =
      CBQ.PopResult1.done st q' out) : q' = q := by
  unfold CBQ.getFrontInternalOne at h
  cases hw : CBQ.waitResolve q blocking pred <;> rw [hw] at h
  · injection h with h1 h2 h3
    exact h2.symm
  · cases h
  · by_cases hi : q.interrupted
    · rw [if_pos hi] at h
      injection h with h1 h2 h3
      exact h2.symm
    · rw [if_neg hi] at h
      by_cases he : q.data.isEmpty
      · rw [if_pos he] at h
        injection h with h1 h2 h3
        exact h2.symm
      · rw [if_neg he] at h
        cases hd : q.data with
        | nil => rw [hd] at he; simp at he
        | cons x rest =>
          rw [hd] at h
          unfold CBQ.dataGetOne at h
          simp only [Bool.false_eq_true, if_false] at h
          injection h with h1 h2 h3
          rw [← h2, ← hd]

/-- A batch peek (`pop = false`) that returns a status leaves the queue
state exactly as it was. -/
theorem getFrontInternalBatch_peek_queue {α : Type} (q : CBQ.Queue α)
    (blocking : Bool) (pred : CBQ.Queue α → Bool) (count : Nat)
    (st : CBQ.StatusCode) (q' : CBQ.Queue α) (out : Option (List α))
    (h : CBQ.getFrontInternalBatch q blocking pred count false =
      CBQ.PopResult.done st q' out) : q' = q := by
  unfold CBQ.getFrontInternalBatch at h
  cases hw : CBQ.waitResolve q blocking pred <;> rw [hw] at h
  · injection h with h1 h2 h3
    exact h2.symm
  · cases h
  · by_cases hi : q.interrupted
    · rw [if_pos hi] at h
      injection h with h1 h2 h3
      exact h2.symm
    · rw [if_neg hi] at h
      by_cases he : q.data.isEmpty
      · rw [if_pos he] at h
        injection h with h1 h2 h3
        exact h2.symm
      · rw [if_neg he] at h
        unfold CBQ.dataGet at h
        by_cases hc : count ≤ q.data.length
        · rw [if_pos hc] at h
          simp only [Bool.false_eq_true, if_false] at h
          injection h with h1 h2 h3
          exact h2.symm
        · rw [if_neg hc] at h
          cases h

/-- C8: the peek operations never change the element sequence — whenever
`getFront` or `getFrontBatch` returns a status, the queue after the call
has the same size and the same stored elements as before, whatever the
status, the count, the blocking mode and the prior state. -/
theorem c8_peek_never_mutates {α : Type} (q : CBQ.Queue α) (count : Nat)
    (blocking : Bool) :
    (∀ (st : CBQ.StatusCode) (q' : CBQ.Queue α) (out : Option α),
      CBQ.getFront q blocking = CBQ.PopResult1.done st q' out →
      CBQ.getSize q' = CBQ.getSize q ∧ q'.data = q.data) ∧
    (∀ (st : CBQ.StatusCode) (q' : CBQ.Queue α) (out : Option (List α)),
      CBQ.getFrontBatch q count blocking = CBQ.PopResult.done st q' out →
      CBQ.getSize q' = CBQ.getSize q ∧ q'.data = q.data) := by
  constructor <;> intro st q' out h
  · have hq : q' = q := getFrontInternalOne_peek_queue q blocking
      (fun s => !s.data.isEmpty || s.interrupted) st q' out h
    rw [hq]
    exact ⟨rfl, rfl⟩
  · have hq : q' = q := getFrontInternalBatch_peek_queue q blocking
      (fun s => decide (count ≤ s.data.length) || s.interrupted) count st q' out h
    rw [hq]
    exact ⟨rfl, rfl⟩

/-- C9: `clear()` empties the element sequence (`getSize` becomes 0) and
leaves the interrupted flag and the timeout setting exactly as they were,
for every queue state. -/
theorem c9_clear_frame {α : Type} (q : CBQ.Queue α) :
    CBQ.getSize (CBQ.clear q) = 0 ∧
    (CBQ.clear q).data = [] ∧
    CBQ.isInterrupted (CBQ.clear q) = CBQ.isInterrupted q ∧
    CBQ.getTimeoutDuration (CBQ.clear q) = CBQ.getTimeoutDuration q := by
  exact ⟨rfl, rfl, rfl, rfl⟩

/-- C10: a default-constructed queue is empty, Active
(`isInterrupted() = false`) and has no timeout configured
(`getTimeoutDuration()` empty), so the wait section of a blocking call can
never resolve to `Timeout` on it, whatever the wait predicate. -/
theorem c10_default_construction (α : Type) :
    CBQ.getSize (CBQ.init : CBQ.Queue α) = 0 ∧
    CBQ.isEmpty (CBQ.init : CBQ.Queue α) = true ∧
    CBQ.isInterrupted (CBQ.init : CBQ.Queue α) = false ∧
    CBQ.getTimeoutDuration (CBQ.init : CBQ.Queue α) = none ∧
    (∀ (blocking : Bool) (pred : CBQ.Queue α → Bool),
      CBQ.waitResolve (CBQ.init : CBQ.Queue α) blocking pred =
          CBQ.WaitOutcome.proceed ∨
        CBQ.waitResolve (CBQ.init : CBQ.Queue α) blocking pred =
          CBQ.WaitOutcome.blocks) := by
  refine ⟨rfl, rfl, rfl, rfl, ?_⟩
  intro blocking pred
  cases blocking
  · exact Or.inl rfl
  · by_cases hp : pred (CBQ.init : CBQ.Queue α) = true
    · refine Or.inl ?_
      simp only [CBQ.init] at hp
      simp [CBQ.waitResolve, CBQ.init, hp]
    · refine Or.inr ?_
      simp only [CBQ.init] at hp
      simp [CBQ.waitResolve, CBQ.init, hp]

/-- C8 witness: peeking the front of the one-element queue `[3]` returns
`Success` with the element copied out, and the theorem instance shows the
queue after the call has the same size and elements as before. -/
theorem c8_peek_never_mutates_witness :
    (CBQ.getFront (⟨[3], false, none⟩ : CBQ.Queue Nat) true =
      CBQ.PopResult1.done CBQ.StatusCode.Success ⟨[3], false, none⟩ (some 3)) ∧
    (CBQ.getSize (⟨[3], false, none⟩ : CBQ.Queue Nat) =
        CBQ.getSize (⟨[3], false, none⟩ : CBQ.Queue Nat) ∧
      (⟨[3], false, none⟩ : CBQ.Queue Nat).data =
        (⟨[3], false, none⟩ : CBQ.Queue Nat).data) :=
  ⟨rfl, (c8_peek_never_mutates (⟨[3], false, none⟩ : CBQ.Queue Nat) 1 true).1
    CBQ.StatusCode.Success ⟨[3], false, none⟩ (some 3) rfl⟩
